import Mathlib

/-!
Verification of the career-mentorship matching scripts
(`2020-spring/matching_code.py` and `2021-spring/matching_code.py`).

The Python sources are shallowly embedded: pure computations become Lean
functions over `ℚ`, `ℤ`, `Finset String` and `List`; Python exceptions
(`ZeroDivisionError`, `KeyError`, `StatisticsError`, `IndexError`,
`RecursionError`) become an explicit error type threaded through `Except`
or `Option`.  All definitions are executable.
-/

/-- The Python runtime errors that the embedded code can raise. -/
inductive PyError where
  | zeroDivisionError
  | keyError
  | statisticsError
  | indexError
  | recursionError
  deriving DecidableEq, Repr

/-! ### Python `str.split` and `int` -/

/-- Accumulator-style splitter underlying `pySplit`: walks the character
list, cutting at every occurrence of `sep`.  Mirrors CPython's
`str.split` with an explicit one-character separator. -/
def pySplitAux (sep : Char) : List Char → List Char → List (List Char)
  | [], acc => [acc.reverse]
  | c :: rest, acc =>
    if c = sep then acc.reverse :: pySplitAux sep rest []
    else pySplitAux sep rest (c :: acc)

/-- Python `s.split(sep)` for a one-character separator, as used by the
survey parsers via `row[...].split(";")`.  Note Python's
`"".split(";") == [""]`: the result is never the empty list. -/
def pySplit (sep : Char) (s : String) : List String :=
  (pySplitAux sep s.data []).map List.asString

/-- Embeds `frozenset(raw.split(";"))`, the multi-value tag-set parser
applied to every delimiter-separated survey field. -/
def parseTagSet (raw : String) : Finset String :=
  (pySplit ';' raw).toFinset

/-- Embeds Python `int(raw)` on survey answers: strip whitespace, allow an
optional sign, then require decimal digits; `none` models the
`ValueError` branch. -/
def pythonInt (s : String) : Option Int :=
  let t := s.trim
  if t.startsWith "-" then ((t.drop 1).toNat?).map (fun n => -(n : Int))
  else if t.startsWith "+" then ((t.drop 1).toNat?).map (fun n => (n : Int))
  else (t.toNat?).map (fun n => (n : Int))

/-! ### 2020 data classes and survey parsing

Column indices from the 2020 script: `EMAIL = 1`, `ROLE = 2`,
`MENTOR_available_time = 5`, `MENTOR_EXPERIENCED_FIELDS = 6`,
`MENTOR_KNOWLEDGEABLE_TOPICS = 7`, `MENTEE_DESIRED_TOPICS = 10`,
`MENTEE_INTERESTED_FIELDS = 11`, `YEAR = 13`. -/

/-- The 2020 `Mentee` dataclass: a `Student` (email, year) plus the two
parsed tag sets. -/
structure Mentee2020 where
  email : String
  year : String
  interested_fields : Finset String
  desired_topics : Finset String
  deriving DecidableEq

/-- The 2020 `Mentor` dataclass: a `Student` plus tag sets, the raw
`available_time` answer, and the duplicate-instance index
`copy_number` (dataclass default 0). -/
structure Mentor2020 where
  email : String
  year : String
  experienced_fields : Finset String
  knowledgeable_topics : Finset String
  available_time : Int
  copy_number : Nat := 0
  deriving DecidableEq

/-- `YEAR_VALUES` lookup; `none` models the `KeyError` a label outside the
vocabulary raises. -/
def yearValues (year : String) : Option Int :=
  if year = "Freshman" then some 1
  else if year = "Sophomore" then some 2
  else if year = "Junior" then some 3
  else if year = "Senior" then some 4
  else if year = "Masters" then some 4
  else if year = "Alum" then some 5
  else none

/-- `Mentee.from_survey_response` (2020): reads `row[1]`, `row[13]`,
`row[11]`, `row[10]`; `none` models the `IndexError` on a short row. -/
def Mentee2020.fromSurveyResponse (row : List String) : Option Mentee2020 :=
  match row.get? 1, row.get? 13, row.get? 11, row.get? 10 with
  | some email, some year, some interests, some topics =>
    some { email := email, year := year,
           interested_fields := parseTagSet interests,
           desired_topics := parseTagSet topics }
  | _, _, _, _ => none

/-- `Mentor.from_survey_response` (2020): reads `row[1]`, `row[13]`,
`row[6]`, `row[7]`, and `int(row[5])` with the documented fallback 1 on a
`ValueError`. -/
def Mentor2020.fromSurveyResponse (row : List String) : Option Mentor2020 :=
  match row.get? 1, row.get? 13, row.get? 6, row.get? 7, row.get? 5 with
  | some email, some year, some fields, some topics, some rawTime =>
    some { email := email, year := year,
           experienced_fields := parseTagSet fields,
           knowledgeable_topics := parseTagSet topics,
           available_time := (pythonInt rawTime).getD 1,
           copy_number := 0 }
  | _, _, _, _, _ => none

/-! ### 2020 capacity expansion -/

/-- `Mentor.num_mentees_possible` (2020): hours-to-capacity step function,
clamped at 3. -/
def numMenteesPossible (m : Mentor2020) : Int :=
  if m.available_time ≤ 2 then m.available_time else 3

/-- `Mentor.copy_self_for_bipartite_graph` (2020): the list
`[self] ++ [copy with copy_number = i for i in range(1, k)]` where
`k = num_mentees_possible`.  Python's `range(1, k)` is empty for `k ≤ 1`,
so the original instance is always kept: the result never has fewer than
one element, even when `k = 0`. -/
def copySelfForBipartiteGraph (m : Mentor2020) : List Mentor2020 :=
  m :: (List.range' 1 ((numMenteesPossible m).toNat - 1)).map
    (fun i => { m with copy_number := i })

/-! ### 2020 edge scorer -/

/-- `CAREER_INTERESTS_MULTIPLIER` (2020 scorer constant). -/
def CAREER_INTERESTS_MULTIPLIER : ℚ := 5

/-- `RECRUITMENT_TOPICS_MULTIPLIER` (2020 scorer constant). -/
def RECRUITMENT_TOPICS_MULTIPLIER : ℚ := 3

/-- `MENTOR_NOT_OLDER_PENALTY` (2020 scorer constant). -/
def MENTOR_NOT_OLDER_PENALTY : ℚ := 10000000

/-- `MENTOR_CLOSE_IN_YEAR_BONUS` (2020 scorer constant). -/
def MENTOR_CLOSE_IN_YEAR_BONUS : ℚ := 1

/-- `MENTOR_TAKES_ON_ANOTHER_MENTEE_PENALTY` (2020 scorer constant). -/
def MENTOR_TAKES_ON_ANOTHER_MENTEE_PENALTY : ℚ := 100

/-- The per-edge `statistics` dictionary of the 2020 scorer. -/
structure Stats2020 where
  interests_overlap_fraction : ℚ
  topics_overlap_fraction : ℚ
  year_difference : Int
  deriving DecidableEq

/-- `MentorshipEdge.compute_weight_and_statistics` (2020).  Follows the
source's evaluation order: the interests division (raising
`ZeroDivisionError` on an empty `interested_fields`), the topics
division, the `YEAR_VALUES` lookups (raising `KeyError` on an unknown
label, mentor first), then the weight accumulation: overlap terms, the
not-older penalty when `year_difference ≤ 0`, the close-in-year bonus
when `year_difference ∈ {1, 2}`, and the duplicate-mentor penalty
`100 * copy_number`. -/
def computeWeightAndStatistics (mentee : Mentee2020) (mentor : Mentor2020) :
    Except PyError (ℚ × Stats2020) :=
  if mentee.interested_fields.card = 0 then .error .zeroDivisionError
  else if mentee.desired_topics.card = 0 then .error .zeroDivisionError
  else
    match yearValues mentor.year, yearValues mentee.year with
    | none, _ => .error .keyError
    | some _, none => .error .keyError
    | some mentorYearValue, some menteeYearValue =>
      let interestsOverlapFraction : ℚ :=
        ((mentee.interested_fields ∩ mentor.experienced_fields).card : ℚ) /
          (mentee.interested_fields.card : ℚ)
      let topicsOverlapFraction : ℚ :=
        ((mentee.desired_topics ∩ mentor.knowledgeable_topics).card : ℚ) /
          (mentee.desired_topics.card : ℚ)
      let yearDifference : Int := mentorYearValue - menteeYearValue
      let weight : ℚ :=
        CAREER_INTERESTS_MULTIPLIER * interestsOverlapFraction
          + RECRUITMENT_TOPICS_MULTIPLIER * topicsOverlapFraction
          + (if yearDifference ≤ 0 then -MENTOR_NOT_OLDER_PENALTY else 0)
          + (if yearDifference = 1 ∨ yearDifference = 2 then
              MENTOR_CLOSE_IN_YEAR_BONUS else 0)
          - MENTOR_TAKES_ON_ANOTHER_MENTEE_PENALTY * (mentor.copy_number : ℚ)
      .ok (weight, { interests_overlap_fraction := interestsOverlapFraction,
                     topics_overlap_fraction := topicsOverlapFraction,
                     year_difference := yearDifference })

/-! ### Reporting (`print_overall_matching_statistics`) -/

/-- Python `statistics.mean`: raises `StatisticsError` on an empty list. -/
def pyMean (l : List ℚ) : Except PyError ℚ :=
  if l.length = 0 then .error .statisticsError
  else .ok (l.sum / (l.length : ℚ))

/-- The square of Python `statistics.stdev` (the sample variance, kept
rational so the embedding stays exact; `stdev` itself is the square root
of this value and is defined exactly when this computation is).  Raises
`StatisticsError` when fewer than two data points are given. -/
def pySampleVariance (l : List ℚ) : Except PyError ℚ :=
  if l.length < 2 then .error .statisticsError
  else .ok ((l.map (fun x => (x - l.sum / (l.length : ℚ)) ^ 2)).sum /
    ((l.length : ℚ) - 1))

/-- The aggregate report: per criterion, the mean and the squared sample
standard deviation across the winning edges. -/
structure OverallStats2020 where
  interests_avg : ℚ
  interests_stddev_sq : ℚ
  topics_avg : ℚ
  topics_stddev_sq : ℚ
  year_avg : ℚ
  year_stddev_sq : ℚ
  deriving DecidableEq

/-- `print_overall_matching_statistics` (identical in both scripts;
`DEBUG = True` so the early-return guard is off).  `edges[0]` on an empty
list raises `IndexError`; then, per criterion, `statistics.mean` and
`statistics.stdev` run on the list of that criterion's values across all
edges, in dictionary insertion order. -/
def printOverallMatchingStatistics (edges : List Stats2020) :
    Except PyError OverallStats2020 :=
  match edges with
  | [] => .error .indexError
  | _ :: _ => do
    let ia ← pyMean (edges.map (fun e => e.interests_overlap_fraction))
    let iv ← pySampleVariance (edges.map (fun e => e.interests_overlap_fraction))
    let ta ← pyMean (edges.map (fun e => e.topics_overlap_fraction))
    let tv ← pySampleVariance (edges.map (fun e => e.topics_overlap_fraction))
    let ya ← pyMean (edges.map (fun e => (e.year_difference : ℚ)))
    let yv ← pySampleVariance (edges.map (fun e => (e.year_difference : ℚ)))
    .ok { interests_avg := ia, interests_stddev_sq := iv,
          topics_avg := ta, topics_stddev_sq := tv,
          year_avg := ya, year_stddev_sq := yv }

/-! ### 2021 data classes, parsing, expansion and scorer

Column indices from the 2021 script: `EMAIL = 1`, `NAME = 3`, `YEAR = 4`,
`GMT_TIMEZONE = 5`, `MENTOR_PREFER_GENDER = 6`, `MENTOR_GENDER = 7`,
`MENTOR_PREFER_RACE = 8`, `MENTOR_RACE = 9`,
`MENTOR_NUMBER_OF_MENTEES = 10`, `MENTOR_TIME_AVAILABLE = 11`,
`MENTOR_CS_EXPERIENCE = 12`, `MENTOR_EXPERIENCED_FIELDS = 13`,
`MENTOR_COMFORTABLE_HELPING = 14`, `MENTOR_HOBBIES = 15`,
`MENTEE_CS_EXPERIENCE = 17`, `MENTEE_PREFER_GENDER = 18`,
`MENTEE_GENDER = 19`, `MENTEE_PREFER_RACE = 20`, `MENTEE_RACE = 21`,
`MENTEE_TIME_AVAILABLE = 22`, `MENTEE_DESIRED_TOPICS = 23`,
`MENTEE_INTERESTED_FIELDS = 24`, `MENTEE_HOBBIES = 25`.

An `Option` field models a Python attribute the parser may leave unset
(reading an unset attribute raises `AttributeError` at run time). -/

/-- The 2021 `Mentee` dataclass.  `gender` is declared but the parser
only stores the survey answer in a local variable, so the attribute is
never assigned (`none`). -/
structure Mentee2021 where
  email : String
  name : String
  year : String
  time_zone : Int
  interested_fields : Finset String
  desired_topics : Finset String
  available_time : Int
  hobbies : Finset String
  does_prefer_gender : Option Bool
  gender : Option String
  cs_experience : Int
  does_prefer_race : Option Bool
  deriving DecidableEq

/-- The 2021 `Mentor` dataclass; same conventions as `Mentee2021`. -/
structure Mentor2021 where
  email : String
  name : String
  year : String
  time_zone : Int
  experienced_fields : Finset String
  knowledgeable_topics : Finset String
  num_mentees : Int
  available_time : Int
  hobbies : Finset String
  does_prefer_gender : Option Bool
  gender : Option String
  cs_experience : Int
  does_prefer_race : Option Bool
  copy_number : Nat := 0
  deriving DecidableEq

/-- The 2021 preference parsing: answer `"Yes"` sets the flag to true,
`"No preference"` to false, and any other answer leaves the attribute
unset (the surrounding `try` only catches `ValueError`, which indexing
never raises). -/
def parsePreferenceFlag (raw : String) : Option Bool :=
  if raw = "Yes" then some true
  else if raw = "No preference" then some false
  else none

/-- `Mentee.from_survey_response` (2021).  Mirrors the source, including
the `Student(email, year, name, time_zone)` positional call against the
field order `(email, name, year, time_zone)`: the `name` field receives
the year label and the `year` field receives the student's name.
`none` models an uncaught `IndexError` or `ValueError` (`int(...)` on
`GMT_TIMEZONE`, `MENTEE_CS_EXPERIENCE`, `MENTEE_TIME_AVAILABLE`). -/
def Mentee2021.fromSurveyResponse (row : List String) : Option Mentee2021 :=
  match row.get? 1, row.get? 4, row.get? 3, row.get? 5 with
  | some email, some yearLabel, some studentName, some tzRaw =>
    match pythonInt tzRaw with
    | none => none
    | some tz =>
      match row.get? 24, row.get? 23, row.get? 25, row.get? 17,
          row.get? 22, row.get? 18, row.get? 20 with
      | some interests, some topics, some hobbies, some cs, some avail,
          some preferGender, some preferRace =>
        match pythonInt cs, pythonInt avail with
        | some csv, some availv =>
          some { email := email, name := yearLabel, year := studentName,
                 time_zone := tz,
                 interested_fields := parseTagSet interests,
                 desired_topics := parseTagSet topics,
                 available_time := availv,
                 hobbies := parseTagSet hobbies,
                 does_prefer_gender := parsePreferenceFlag preferGender,
                 gender := none,
                 cs_experience := csv,
                 does_prefer_race := parsePreferenceFlag preferRace }
        | _, _ => none
      | _, _, _, _, _, _, _ => none
  | _, _, _, _ => none

/-- `Mentor.from_survey_response` (2021); same conventions as the mentee
parser (and the same `Student` positional swap; `gender` and race are
read into dropped local variables). -/
def Mentor2021.fromSurveyResponse (row : List String) : Option Mentor2021 :=
  match row.get? 1, row.get? 4, row.get? 3, row.get? 5 with
  | some email, some yearLabel, some studentName, some tzRaw =>
    match pythonInt tzRaw with
    | none => none
    | some tz =>
      match row.get? 13, row.get? 14, row.get? 15, row.get? 10,
          row.get? 12, row.get? 11, row.get? 6, row.get? 8 with
      | some fields, some topics, some hobbies, some numMentees, some cs,
          some avail, some preferGender, some preferRace =>
        match pythonInt numMentees, pythonInt cs, pythonInt avail with
        | some nmv, some csv, some availv =>
          some { email := email, name := yearLabel, year := studentName,
                 time_zone := tz,
                 experienced_fields := parseTagSet fields,
                 knowledgeable_topics := parseTagSet topics,
                 num_mentees := nmv,
                 available_time := availv,
                 hobbies := parseTagSet hobbies,
                 does_prefer_gender := parsePreferenceFlag preferGender,
                 gender := none,
                 cs_experience := csv,
                 does_prefer_race := parsePreferenceFlag preferRace,
                 copy_number := 0 }
        | _, _, _ => none
      | _, _, _, _, _, _, _, _ => none
  | _, _, _, _ => none

/-- `Mentor.copy_self_for_bipartite_graph` (2021): identical loop shape to
the 2020 version, with the capacity read directly from `num_mentees`. -/
def copySelfForBipartiteGraph2021 (m : Mentor2021) : List Mentor2021 :=
  m :: (List.range' 1 (m.num_mentees.toNat - 1)).map
    (fun i => { m with copy_number := i })

/-- `MentorshipEdge.compute_weight_and_statistics` (2021).  The first
criterion calls the nested helper `compute_with_overlap`, which computes
`num_overlap / num_mentee` (raising `ZeroDivisionError` on an empty
`interested_fields`) and then executes `self.weight += ...`.  `weight` is
a getter-only property and `self._weight` is still `None` at this point,
so reading it re-enters `compute_weight_and_statistics`: the call always
aborts with `RecursionError` before any later criterion (year, hobbies,
gender, race, time zone, availability, experience, slot penalty) runs,
and no weight or statistics value is ever produced.  (Were the recursion
fixed, the assignment itself would raise `AttributeError`, the property
having no setter, as would `self.mentor.actual` in `gender_and_race` and
`self.mentor.time_available`.) -/
def computeWeightAndStatistics2021 (mentee : Mentee2021) (mentor : Mentor2021) :
    Except PyError (ℚ × List (String × ℚ)) :=
  let _numInterestsOverlap :=
    (mentee.interested_fields ∩ mentor.experienced_fields).card
  if mentee.interested_fields.card = 0 then .error .zeroDivisionError
  else .error .recursionError

/-! ### Assignment solver

`MentorshipGraph.find_optimal_matches` calls networkx
`bipartite.minimum_weight_full_matching` on the complete bipartite graph
whose edges carry the negated scorer weight.  That library routine (per
its documentation, via `scipy.optimize.linear_sum_assignment` on the
mentees × slots cost matrix) returns a minimum-cost assignment that
saturates the smaller of the two sides; with all costs finite — always
the case here — it never raises.  The solver model below enumerates the
candidate assignments of the smaller side and takes the first cost
minimiser, then `find_optimal_matches` keys the resulting pairing
dictionary by its `Mentee` entries, which yields exactly the matched
(mentee, slot) pairs. -/

/-- All ways to pick an ordered list of `n` distinct elements from
`pool` — the candidate assignments of the smaller side of the bipartite
graph. -/
def pickDistinct {α : Type} [DecidableEq α] : Nat → List α → List (List α)
  | 0, _ => [[]]
  | n + 1, pool =>
    pool.flatMap (fun x => (pickDistinct n (pool.erase x)).map (x :: ·))

/-- Model of networkx `bipartite.minimum_weight_full_matching` /
scipy `linear_sum_assignment` on the `m × s` cost matrix: a minimum-cost
assignment saturating the smaller side, returned as (row, column) pairs.
`List.argmin` takes the first minimiser, so the result is deterministic
for a fixed input ordering. -/
def minimumWeightFullMatching (m s : Nat) (cost : Fin m → Fin s → ℚ) :
    Option (List (Fin m × Fin s)) :=
  if m ≤ s then
    ((pickDistinct m (List.finRange s)).argmin (fun σ =>
      (((List.finRange m).zip σ).map (fun p => cost p.1 p.2)).sum)).map
      (fun σ => (List.finRange m).zip σ)
  else
    ((pickDistinct s (List.finRange m)).argmin (fun τ =>
      ((τ.zip (List.finRange s)).map (fun p => cost p.1 p.2)).sum)).map
      (fun τ => τ.zip (List.finRange s))

/-- `MentorshipGraph.find_optimal_matches`: the graph stores
`weight=(-edge.weight)` on every edge (the library only minimises), so
the solver maximises the scorer weight.  Mentees are `Fin m`, mentor
slots (the expanded `mentor_nodes` list) are `Fin s`, and `w` is the
scorer weight of each (mentee, slot) pair. -/
def findOptimalMatches (m s : Nat) (w : Fin m → Fin s → ℚ) :
    Option (List (Fin m × Fin s)) :=
  minimumWeightFullMatching m s (fun i j => -(w i j))

/-! ### Concrete fixtures used by witnesses and counterexamples -/

/-- A mentee with one career interest and one desired topic. -/
def menteeJunior : Mentee2020 :=
  { email := "mentee@u.edu", year := "Junior",
    interested_fields := {"ML"}, desired_topics := {"Resume"} }

/-- A mentor in the same year as `menteeJunior`. -/
def mentorJunior : Mentor2020 :=
  { email := "m1@u.edu", year := "Junior", experienced_fields := ∅,
    knowledgeable_topics := ∅, available_time := 2, copy_number := 0 }

/-- A mentor one year older than `menteeJunior`. -/
def mentorSenior : Mentor2020 :=
  { email := "m2@u.edu", year := "Senior", experienced_fields := ∅,
    knowledgeable_topics := ∅, available_time := 2, copy_number := 0 }

/-- A mentee whose `interested_fields` set is empty. -/
def menteeNoInterests : Mentee2020 :=
  { email := "empty@u.edu", year := "Freshman",
    interested_fields := ∅, desired_topics := {"Resume"} }

/-- A mentee whose `desired_topics` set is empty. -/
def menteeNoTopics : Mentee2020 :=
  { email := "empty2@u.edu", year := "Freshman",
    interested_fields := {"ML"}, desired_topics := ∅ }

/-- A 2020 mentor with `available_time = 0`, hence
`num_mentees_possible = 0`. -/
def mentorZeroCapacity : Mentor2020 :=
  { email := "zero@u.edu", year := "Senior", experienced_fields := ∅,
    knowledgeable_topics := ∅, available_time := 0, copy_number := 0 }

/-- A 2021 mentor with `num_mentees = 0`. -/
def mentor2021ZeroCapacity : Mentor2021 :=
  { email := "zero21@u.edu", name := "Senior", year := "Zed Zero",
    time_zone := 0, experienced_fields := ∅, knowledgeable_topics := ∅,
    num_mentees := 0, available_time := 1, hobbies := ∅,
    does_prefer_gender := some false, gender := none, cs_experience := 3,
    does_prefer_race := some false, copy_number := 0 }

/-- A 2021 mentee who declared a gender preference. -/
def mentee2021GenderPref : Mentee2021 :=
  { email := "gp@u.edu", name := "Freshman", year := "Gia Pref",
    time_zone := -6, interested_fields := {"ML"},
    desired_topics := {"Resume"}, available_time := 2, hobbies := {"chess"},
    does_prefer_gender := some true, gender := none, cs_experience := 1,
    does_prefer_race := some false }

/-- A 2021 mentor who declared a gender preference. -/
def mentor2021GenderPref : Mentor2021 :=
  { email := "gp2@u.edu", name := "Senior", year := "Mia Pref",
    time_zone := -6, experienced_fields := {"ML"},
    knowledgeable_topics := {"Resume"}, num_mentees := 2,
    available_time := 2, hobbies := {"chess"},
    does_prefer_gender := some true, gender := none, cs_experience := 4,
    does_prefer_race := some false, copy_number := 0 }

/-- A statistics record as produced for a concrete winning edge. -/
def stats0 : Stats2020 :=
  { interests_overlap_fraction := 0, topics_overlap_fraction := 0,
    year_difference := 1 }

/-- A second statistics record. -/
def stats1 : Stats2020 :=
  { interests_overlap_fraction := 1, topics_overlap_fraction := 1,
    year_difference := 2 }

/-- A well-formed 2020 mentee survey row (14 columns). -/
def rowMentee : List String :=
  ["t", "mentee@u.edu", "Mentee", "", "", "", "", "", "", "",
   "Resume;Interviews", "ML;Security", "", "Freshman"]

/-- A well-formed 2020 mentor survey row (14 columns). -/
def rowMentor : List String :=
  ["t", "mentor@u.edu", "Mentor", "", "", "3", "ML;Web", "Resume", "", "",
   "", "", "", "Junior"]

/-- The mentee parsed from `rowMentee`. -/
def menteeParsed : Mentee2020 :=
  { email := "mentee@u.edu", year := "Freshman",
    interested_fields := parseTagSet "ML;Security",
    desired_topics := parseTagSet "Resume;Interviews" }

/-- The mentor parsed from `rowMentor`. -/
def mentorParsed : Mentor2020 :=
  { email := "mentor@u.edu", year := "Junior",
    experienced_fields := parseTagSet "ML;Web",
    knowledgeable_topics := parseTagSet "Resume",
    available_time := (pythonInt "3").getD 1, copy_number := 0 }

/-- A 2 × 2 weight matrix for the solver witness. -/
def wEx2 : Fin 2 → Fin 2 → ℚ := fun i j => if i = j then 10 else 1

/-- A 3-mentee, 2-slot weight matrix: the spec's infeasibility fixture. -/
def wEx32 : Fin 3 → Fin 2 → ℚ := fun _ _ => 0

/-! ## Theorems -/

/-! ### Splitting and parsing -/

theorem pySplitAux_ne_nil (sep : Char) (l acc : List Char) :
    pySplitAux sep l acc ≠ [] := by
  induction l generalizing acc with
  | nil => simp [pySplitAux]
  | cons c rest ih =>
    simp only [pySplitAux]
    split
    · simp
    · exact ih _

theorem pySplit_ne_nil (sep : Char) (s : String) : pySplit sep s ≠ [] := by
  simp [pySplit, pySplitAux_ne_nil]

/-- Splitting always produces at least one chunk, so every parsed tag set
is non-empty (Python `"".split(";") == [""]`). -/
theorem parseTagSet_nonempty (raw : String) : (parseTagSet raw).Nonempty := by
  rcases h : pySplit ';' raw with _ | ⟨x, xs⟩
  · exact absurd h (pySplit_ne_nil ';' raw)
  · exact ⟨x, by simp [parseTagSet, h]⟩

/-! ### Capacity expansion -/

theorem copySelf_length (m : Mentor2020) :
    (copySelfForBipartiteGraph m).length =
      1 + ((numMenteesPossible m).toNat - 1) := by
  simp [copySelfForBipartiteGraph]
  omega

/-- Capacity expansion never produces a slot index above 2: the capacity
step function is clamped at 3. -/
theorem copySelf_copy_number_le_two (m slot : Mentor2020)
    (hbase : m.copy_number = 0)
    (hmem : slot ∈ copySelfForBipartiteGraph m) : slot.copy_number ≤ 2 := by
  have hcap : (numMenteesPossible m).toNat ≤ 3 := by
    unfold numMenteesPossible
    split
    · omega
    · simp
  rcases List.mem_cons.mp hmem with h | h
  · simp [h, hbase]
  · rcases List.mem_map.mp h with ⟨i, hi, rfl⟩
    have := List.mem_range'.mp hi
    simpa using by omega

/-! ### Scorer inversion -/

/-- Inversion principle for a successful run of the 2020 scorer. -/
theorem computeWeightAndStatistics_ok_iff (mentee : Mentee2020)
    (mentor : Mentor2020) (w : ℚ) (st : Stats2020) :
    computeWeightAndStatistics mentee mentor = .ok (w, st) ↔
      mentee.interested_fields.card ≠ 0 ∧ mentee.desired_topics.card ≠ 0 ∧
      ∃ a b, yearValues mentor.year = some a ∧ yearValues mentee.year = some b ∧
        st = { interests_overlap_fraction :=
                 ((mentee.interested_fields ∩ mentor.experienced_fields).card : ℚ) /
                   (mentee.interested_fields.card : ℚ),
               topics_overlap_fraction :=
                 ((mentee.desired_topics ∩ mentor.knowledgeable_topics).card : ℚ) /
                   (mentee.desired_topics.card : ℚ),
               year_difference := a - b } ∧
        w = CAREER_INTERESTS_MULTIPLIER * st.interests_overlap_fraction
              + RECRUITMENT_TOPICS_MULTIPLIER * st.topics_overlap_fraction
              + (if st.year_difference ≤ 0 then -MENTOR_NOT_OLDER_PENALTY else 0)
              + (if st.year_difference = 1 ∨ st.year_difference = 2 then
                  MENTOR_CLOSE_IN_YEAR_BONUS else 0)
              - MENTOR_TAKES_ON_ANOTHER_MENTEE_PENALTY * (mentor.copy_number : ℚ) := by
  unfold computeWeightAndStatistics
  constructor
  · intro h
    by_cases hi : mentee.interested_fields.card = 0
    · rw [if_pos hi] at h; simp at h
    · rw [if_neg hi] at h
      by_cases ht : mentee.desired_topics.card = 0
      · rw [if_pos ht] at h; simp at h
      · rw [if_neg ht] at h
        rcases ha : yearValues mentor.year with _ | a
        · rw [ha] at h; simp at h
        · rcases hb : yearValues mentee.year with _ | b
          · rw [ha, hb] at h; simp at h
          · rw [ha, hb] at h
            simp only [Except.ok.injEq, Prod.mk.injEq] at h
            obtain ⟨hw, hst⟩ := h
            refine ⟨hi, ht, a, b, rfl, rfl, hst.symm, ?_⟩
            rw [← hw, ← hst]
  · rintro ⟨hi, ht, a, b, ha, hb, hst, hw⟩
    rw [if_neg hi, if_neg ht, ha, hb]
    simp only [Except.ok.injEq, Prod.mk.injEq]
    exact ⟨by rw [hw, hst], hst.symm⟩

/-- Overlap fractions lie in `[0, 1]`. -/
theorem overlap_fraction_bounds (A B : Finset String) (h : A.card ≠ 0) :
    (0 : ℚ) ≤ ((A ∩ B).card : ℚ) / (A.card : ℚ) ∧
    ((A ∩ B).card : ℚ) / (A.card : ℚ) ≤ 1 := by
  have hpos : (0 : ℚ) < (A.card : ℚ) := by
    exact_mod_cast Nat.pos_of_ne_zero h
  constructor
  · positivity
  · rw [div_le_one hpos]
    exact_mod_cast Finset.card_le_card Finset.inter_subset_left

/-! ### Solver lemmas -/

/-- Membership in `pickDistinct`: exactly the length-`n` duplicate-free
lists drawn from a duplicate-free pool. -/
theorem mem_pickDistinct {α : Type} [DecidableEq α] (n : Nat) :
    ∀ (pool xs : List α), pool.Nodup →
      (xs ∈ pickDistinct n pool ↔
        xs.length = n ∧ xs.Nodup ∧ ∀ x ∈ xs, x ∈ pool) := by
  induction n with
  | zero =>
    intro pool xs _
    simp only [pickDistinct, List.mem_singleton]
    constructor
    · rintro rfl; simp
    · rintro ⟨h, -, -⟩; exact List.length_eq_zero.mp h
  | succ n ih =>
    intro pool xs hpool
    simp only [pickDistinct, List.mem_flatMap, List.mem_map]
    constructor
    · rintro ⟨x, hx, ys, hys, rfl⟩
      obtain ⟨hlen, hnd, hmem⟩ := (ih (pool.erase x) ys (hpool.erase x)).mp hys
      have hxnotin : x ∉ ys := by
        intro hxy
        have hx' := hmem x hxy
        rw [List.Nodup.mem_erase_iff hpool] at hx'
        exact hx'.1 rfl
      refine ⟨by simp [hlen], List.nodup_cons.mpr ⟨hxnotin, hnd⟩, ?_⟩
      intro z hz
      rcases List.mem_cons.mp hz with rfl | hz
      · exact hx
      · exact List.erase_subset x pool (hmem z hz)
    · rintro ⟨hlen, hnd, hmem⟩
      rcases xs with _ | ⟨x, ys⟩
      · simp at hlen
      · have hx : x ∈ pool := hmem x (by simp)
        have hndc := List.nodup_cons.mp hnd
        refine ⟨x, hx, ys, ?_, rfl⟩
        refine (ih (pool.erase x) ys (hpool.erase x)).mpr
          ⟨by simpa using hlen, hndc.2, ?_⟩
        intro z hz
        rw [List.Nodup.mem_erase_iff hpool]
        exact ⟨fun hzx => hndc.1 (hzx ▸ hz), hmem z (by simp [hz])⟩

/-- When the pool is large enough, at least one candidate exists. -/
theorem pickDistinct_ne_nil {α : Type} [DecidableEq α] (n : Nat)
    (pool : List α) (hpool : pool.Nodup) (h : n ≤ pool.length) :
    pickDistinct n pool ≠ [] := by
  have hmem : pool.take n ∈ pickDistinct n pool := by
    rw [mem_pickDistinct n pool _ hpool]
    refine ⟨by simp [List.length_take]; omega,
      hpool.sublist (List.take_sublist n pool), ?_⟩
    intro x hx
    exact List.take_subset n pool hx
  exact List.ne_nil_of_mem hmem

/-- Negating every summand of a mapped list sum. -/
theorem list_sum_map_neg {α : Type} (l : List α) (F : α → ℚ) :
    (l.map (fun a => -(F a))).sum = -((l.map F).sum) := by
  induction l with
  | nil => simp
  | cons a t ih => simp [ih]; ring


/-- Zipping `finRange` with the image of a function is the graph of the
function. -/
theorem zip_finRange_map {n : Nat} {β : Type} (g : Fin n → β) :
    (List.finRange n).zip ((List.finRange n).map g) =
      (List.finRange n).map (fun i => (i, g i)) := by
  simpa using List.zip_map' id g (List.finRange n)

/-- Zipping the image of a function with `finRange` is the flipped graph
of the function. -/
theorem map_zip_finRange {n : Nat} {β : Type} (g : Fin n → β) :
    ((List.finRange n).map g).zip (List.finRange n) =
      (List.finRange n).map (fun j => (g j, j)) := by
  simpa using List.zip_map' g id (List.finRange n)

/-- The branch of the solver taken when mentees are the smaller side:
every mentee is matched, slots are pairwise distinct, and the total
weight is maximal among complete assignments. -/
theorem solverMenteeSide (m s : Nat) (w : Fin m → Fin s → ℚ) (h : m ≤ s) :
    ∃ es, findOptimalMatches m s w = some es ∧
      es.map Prod.fst = List.finRange m ∧
      (es.map Prod.snd).Nodup ∧
      ∀ g : Fin m → Fin s, Function.Injective g →
        (∑ i, w i (g i)) ≤ (es.map (fun p => w p.1 p.2)).sum := by
  have hpoolnd : (List.finRange s).Nodup := List.nodup_finRange s
  have hne : pickDistinct m (List.finRange s) ≠ [] :=
    pickDistinct_ne_nil m (List.finRange s) hpoolnd (by simpa using h)
  rcases hσ : (pickDistinct m (List.finRange s)).argmin
      (fun σ => (((List.finRange m).zip σ).map (fun p => -(w p.1 p.2))).sum)
    with _ | σ
  · exact absurd (List.argmin_eq_none.mp hσ) hne
  · have hσmem : σ ∈ pickDistinct m (List.finRange s) := List.argmin_mem hσ
    obtain ⟨hσlen, hσnd, -⟩ :=
      (mem_pickDistinct m (List.finRange s) σ hpoolnd).mp hσmem
    refine ⟨(List.finRange m).zip σ, ?_, ?_, ?_, ?_⟩
    · simp only [findOptimalMatches, minimumWeightFullMatching, if_pos h]
      rw [hσ]
      rfl
    · exact List.map_fst_zip _ _ (by simp [hσlen])
    · rw [List.map_snd_zip _ _ (by simp [hσlen])]
      exact hσnd
    · intro g hg
      have hcand : (List.finRange m).map g ∈
          pickDistinct m (List.finRange s) := by
        rw [mem_pickDistinct m (List.finRange s) _ hpoolnd]
        exact ⟨by simp, (List.nodup_finRange m).map hg,
          fun x _ => List.mem_finRange x⟩
      have hmin := List.le_of_mem_argmin hcand hσ
      have h1 : (((List.finRange m).zip ((List.finRange m).map g)).map
          (fun p => -(w p.1 p.2))).sum = -(∑ i, w i (g i)) := by
        rw [zip_finRange_map g, List.map_map]
        rw [show ((fun p : Fin m × Fin s => -(w p.1 p.2)) ∘
            (fun i => (i, g i))) = fun i => -(w i (g i)) from rfl]
        rw [← Fin.sum_univ_def (fun i => -(w i (g i)))]
        exact Finset.sum_neg_distrib
      have h2 : (((List.finRange m).zip σ).map (fun p => -(w p.1 p.2))).sum =
          -((((List.finRange m).zip σ).map (fun p => w p.1 p.2)).sum) :=
        list_sum_map_neg _ _
      simp only [h1, h2] at hmin
      linarith

/-- The branch of the solver taken when slots are the smaller side: the
result is a partial assignment saturating the slots, with distinct
mentees and maximal total weight among slot-saturating assignments. -/
theorem solverSlotSide (m s : Nat) (w : Fin m → Fin s → ℚ) (h : s < m) :
    ∃ es, findOptimalMatches m s w = some es ∧
      es.length = s ∧
      es.map Prod.snd = List.finRange s ∧
      (es.map Prod.fst).Nodup ∧
      ∀ g : Fin s → Fin m, Function.Injective g →
        (∑ j, w (g j) j) ≤ (es.map (fun p => w p.1 p.2)).sum := by
  have hpoolnd : (List.finRange m).Nodup := List.nodup_finRange m
  have hne : pickDistinct s (List.finRange m) ≠ [] :=
    pickDistinct_ne_nil s (List.finRange m) hpoolnd (by simp; omega)
  rcases hτ : (pickDistinct s (List.finRange m)).argmin
      (fun τ => ((τ.zip (List.finRange s)).map (fun p => -(w p.1 p.2))).sum)
    with _ | τ
  · exact absurd (List.argmin_eq_none.mp hτ) hne
  · have hτmem : τ ∈ pickDistinct s (List.finRange m) := List.argmin_mem hτ
    obtain ⟨hτlen, hτnd, -⟩ :=
      (mem_pickDistinct s (List.finRange m) τ hpoolnd).mp hτmem
    refine ⟨τ.zip (List.finRange s), ?_, ?_, ?_, ?_, ?_⟩
    · simp only [findOptimalMatches, minimumWeightFullMatching,
        if_neg (by omega : ¬ m ≤ s)]
      rw [hτ]
      rfl
    · simp [List.length_zip, hτlen]
    · exact List.map_snd_zip _ _ (by simp [hτlen])
    · rw [List.map_fst_zip _ _ (by simp [hτlen])]
      exact hτnd
    · intro g hg
      have hcand : (List.finRange s).map g ∈
          pickDistinct s (List.finRange m) := by
        rw [mem_pickDistinct s (List.finRange m) _ hpoolnd]
        exact ⟨by simp, (List.nodup_finRange s).map hg,
          fun x _ => List.mem_finRange x⟩
      have hmin := List.le_of_mem_argmin hcand hτ
      have h1 : ((((List.finRange s).map g).zip (List.finRange s)).map
          (fun p => -(w p.1 p.2))).sum = -(∑ j, w (g j) j) := by
        rw [map_zip_finRange g, List.map_map]
        rw [show ((fun p : Fin m × Fin s => -(w p.1 p.2)) ∘
            (fun j => (g j, j))) = fun j => -(w (g j) j) from rfl]
        rw [← Fin.sum_univ_def (fun j => -(w (g j) j))]
        exact Finset.sum_neg_distrib
      have h2 : ((τ.zip (List.finRange s)).map (fun p => -(w p.1 p.2))).sum =
          -(((τ.zip (List.finRange s)).map (fun p => w p.1 p.2)).sum) :=
        list_sum_map_neg _ _
      simp only [h1, h2] at hmin
      linarith

/-! ### Reporting lemmas -/

theorem pyMean_ok (l : List ℚ) (h : l.length ≠ 0) :
    pyMean l = .ok (l.sum / (l.length : ℚ)) := by
  unfold pyMean
  rw [if_neg h]

theorem pySampleVariance_ok (l : List ℚ) (h : ¬ l.length < 2) :
    pySampleVariance l = .ok
      ((l.map (fun x => (x - l.sum / (l.length : ℚ)) ^ 2)).sum /
        ((l.length : ℚ) - 1)) := by
  unfold pySampleVariance
  rw [if_neg h]

theorem pySampleVariance_err (l : List ℚ) (h : l.length < 2) :
    pySampleVariance l = .error .statisticsError := by
  unfold pySampleVariance
  rw [if_pos h]

theorem except_bind_ok {ε α β : Type} (a : α) (f : α → Except ε β) :
    (Except.ok a : Except ε α) >>= f = f a := rfl

theorem except_bind_err {ε α β : Type} (e : ε) (f : α → Except ε β) :
    (Except.error e : Except ε α) >>= f = .error e := rfl

/-- Successful run of the reporting step on at least two edges. -/
theorem printOverall_ok (e0 : Stats2020) (tl : List Stats2020)
    (h : ¬ (e0 :: tl).length < 2) :
    printOverallMatchingStatistics (e0 :: tl) = .ok
      { interests_avg :=
          (((e0 :: tl).map (fun e => e.interests_overlap_fraction)).sum /
            (((e0 :: tl).length : ℚ))),
        interests_stddev_sq :=
          ((((e0 :: tl).map (fun e => e.interests_overlap_fraction)).map
            (fun x => (x - ((e0 :: tl).map
              (fun e => e.interests_overlap_fraction)).sum /
                (((e0 :: tl).length : ℚ))) ^ 2)).sum /
            (((e0 :: tl).length : ℚ) - 1)),
        topics_avg :=
          (((e0 :: tl).map (fun e => e.topics_overlap_fraction)).sum /
            (((e0 :: tl).length : ℚ))),
        topics_stddev_sq :=
          ((((e0 :: tl).map (fun e => e.topics_overlap_fraction)).map
            (fun x => (x - ((e0 :: tl).map
              (fun e => e.topics_overlap_fraction)).sum /
                (((e0 :: tl).length : ℚ))) ^ 2)).sum /
            (((e0 :: tl).length : ℚ) - 1)),
        year_avg :=
          (((e0 :: tl).map (fun e => (e.year_difference : ℚ))).sum /
            (((e0 :: tl).length : ℚ))),
        year_stddev_sq :=
          ((((e0 :: tl).map (fun e => (e.year_difference : ℚ))).map
            (fun x => (x - ((e0 :: tl).map
              (fun e => (e.year_difference : ℚ))).sum /
                (((e0 :: tl).length : ℚ))) ^ 2)).sum /
            (((e0 :: tl).length : ℚ) - 1)) } := by
  have hmap : ∀ F : Stats2020 → ℚ, ((e0 :: tl).map F).length = (e0 :: tl).length :=
    fun F => List.length_map _ _
  unfold printOverallMatchingStatistics
  rw [pyMean_ok _ (by rw [hmap]; omega), except_bind_ok,
    pySampleVariance_ok _ (by rw [hmap]; omega), except_bind_ok,
    pyMean_ok _ (by rw [hmap]; omega), except_bind_ok,
    pySampleVariance_ok _ (by rw [hmap]; omega), except_bind_ok,
    pyMean_ok _ (by rw [hmap]; omega), except_bind_ok,
    pySampleVariance_ok _ (by rw [hmap]; omega), except_bind_ok]
  rw [hmap, hmap, hmap]

/-! ## Claim theorems -/

/-- C1: whenever a complete assignment exists (`m ≤ s`),
`find_optimal_matches` returns exactly one winning edge per mentee, uses
each mentor slot at most once, and the total weight of the returned
assignment is at least the total weight of every assignment that gives
each mentee a distinct mentor slot. -/
theorem c1_find_optimal_matches_complete_and_optimal
    (m s : Nat) (w : Fin m → Fin s → ℚ) (h : m ≤ s) :
    ∃ es, findOptimalMatches m s w = some es ∧
      es.map Prod.fst = List.finRange m ∧
      (es.map Prod.snd).Nodup ∧
      ∀ g : Fin m → Fin s, Function.Injective g →
        (∑ i, w i (g i)) ≤ (es.map (fun p => w p.1 p.2)).sum :=
  solverMenteeSide m s w h

/-- Witness for C1: the solver at a concrete 2-mentee, 2-slot instance. -/
theorem c1_witness : (findOptimalMatches 2 2 wEx2).isSome = true := by
  obtain ⟨es, hes, -, -, -⟩ :=
    c1_find_optimal_matches_complete_and_optimal 2 2 wEx2 (by norm_num)
  rw [hes]
  rfl

/-- C4 (amended): with fewer mentor slots than mentees the solver does
not fail; it returns a partial assignment saturating the slots — every
slot used exactly once by distinct mentees, of maximal total weight
among slot-saturating assignments — and `__main__` then writes those
rows to the output file. -/
theorem c4_fewer_slots_slot_saturating
    (m s : Nat) (w : Fin m → Fin s → ℚ) (h : s < m) :
    ∃ es, findOptimalMatches m s w = some es ∧
      es.length = s ∧
      es.map Prod.snd = List.finRange s ∧
      (es.map Prod.fst).Nodup ∧
      ∀ g : Fin s → Fin m, Function.Injective g →
        (∑ j, w (g j) j) ≤ (es.map (fun p => w p.1 p.2)).sum :=
  solverSlotSide m s w h

/-- C4 counterexample: on the spec's own infeasibility fixture — 3
mentees, 2 total mentor slots — the solver returns a 2-edge partial
assignment (`some`, not a failure). -/
theorem c4_counterexample :
    Option.map List.length (findOptimalMatches 3 2 wEx32) = some 2 := by
  obtain ⟨es, hes, hlen, -, -, -⟩ := solverSlotSide 3 2 wEx32 (by norm_num)
  rw [hes]
  simp [hlen]

/-- Witness for C4's amended claim at the 3-mentee, 2-slot fixture. -/
theorem c4_witness : (findOptimalMatches 3 2 wEx32).isSome = true := by
  obtain ⟨es, hes, -, -, -, -⟩ :=
    c4_fewer_slots_slot_saturating 3 2 wEx32 (by norm_num)
  rw [hes]
  rfl

/-- C2: `copy_self_for_bipartite_graph` keeps the original instance
unconditionally (`duplicates = [self]` before the loop), so a mentor of
capacity 0 — `available_time = 0` in 2020, `num_mentees = 0` in 2021 —
still yields one mentor slot instead of the contracted zero slots. -/
theorem c2_zero_capacity_yields_one_slot :
    numMenteesPossible mentorZeroCapacity = 0 ∧
    (copySelfForBipartiteGraph mentorZeroCapacity).length = 1 ∧
    mentor2021ZeroCapacity.num_mentees = 0 ∧
    (copySelfForBipartiteGraph2021 mentor2021ZeroCapacity).length = 1 :=
  ⟨rfl, rfl, rfl, rfl⟩

/-- C3: (i) any pair whose year difference is ≤ 0 receives the
10000000-point penalty and scores strictly below every pair with a
positive year difference whose slot came from capacity expansion (the
penalty dominates the combined maximum of all other terms, including the
slot-order penalty, whose index is at most 2); (ii) a pair whose year
difference is exactly 1 or 2 receives the fixed close-in-year bonus on
top of the overlap terms and slot penalty. -/
theorem c3_seniority_gate :
    (∀ (me1 : Mentee2020) (mr1 : Mentor2020) (me2 : Mentee2020)
        (mr2 base : Mentor2020) (w1 w2 : ℚ) (s1 s2 : Stats2020),
      computeWeightAndStatistics me1 mr1 = .ok (w1, s1) →
      computeWeightAndStatistics me2 mr2 = .ok (w2, s2) →
      base.copy_number = 0 → mr2 ∈ copySelfForBipartiteGraph base →
      s1.year_difference ≤ 0 → 0 < s2.year_difference → w1 < w2) ∧
    (∀ (me : Mentee2020) (mr : Mentor2020) (w : ℚ) (st : Stats2020),
      computeWeightAndStatistics me mr = .ok (w, st) →
      st.year_difference = 1 ∨ st.year_difference = 2 →
      w = CAREER_INTERESTS_MULTIPLIER * st.interests_overlap_fraction
            + RECRUITMENT_TOPICS_MULTIPLIER * st.topics_overlap_fraction
            + MENTOR_CLOSE_IN_YEAR_BONUS
            - MENTOR_TAKES_ON_ANOTHER_MENTEE_PENALTY * (mr.copy_number : ℚ)) := by
  constructor
  · intro me1 mr1 me2 mr2 base w1 w2 s1 s2 h1 h2 hbase hmem hy1 hy2
    rw [computeWeightAndStatistics_ok_iff] at h1 h2
    obtain ⟨hi1, ht1, a1, b1, -, -, hst1, hw1⟩ := h1
    obtain ⟨hi2, ht2, a2, b2, -, -, hst2, hw2⟩ := h2
    have hf1 : 0 ≤ s1.interests_overlap_fraction ∧
        s1.interests_overlap_fraction ≤ 1 := by
      rw [hst1]; exact overlap_fraction_bounds _ _ hi1
    have hf2 : 0 ≤ s1.topics_overlap_fraction ∧
        s1.topics_overlap_fraction ≤ 1 := by
      rw [hst1]; exact overlap_fraction_bounds _ _ ht1
    have hf3 : 0 ≤ s2.interests_overlap_fraction ∧
        s2.interests_overlap_fraction ≤ 1 := by
      rw [hst2]; exact overlap_fraction_bounds _ _ hi2
    have hf4 : 0 ≤ s2.topics_overlap_fraction ∧
        s2.topics_overlap_fraction ≤ 1 := by
      rw [hst2]; exact overlap_fraction_bounds _ _ ht2
    have hc1 : (0 : ℚ) ≤ (mr1.copy_number : ℚ) := Nat.cast_nonneg _
    have hc2 : (mr2.copy_number : ℚ) ≤ 2 := by
      exact_mod_cast copySelf_copy_number_le_two base mr2 hbase hmem
    rw [if_pos hy1,
      if_neg (show ¬ (s1.year_difference = 1 ∨ s1.year_difference = 2) by
        omega)] at hw1
    rw [if_neg (show ¬ s2.year_difference ≤ 0 by omega)] at hw2
    simp only [CAREER_INTERESTS_MULTIPLIER, RECRUITMENT_TOPICS_MULTIPLIER,
      MENTOR_NOT_OLDER_PENALTY, MENTOR_CLOSE_IN_YEAR_BONUS,
      MENTOR_TAKES_ON_ANOTHER_MENTEE_PENALTY] at hw1 hw2
    by_cases hbb : s2.year_difference = 1 ∨ s2.year_difference = 2
    · rw [if_pos hbb] at hw2
      linarith [hf1.1, hf1.2, hf2.1, hf2.2, hf3.1, hf3.2, hf4.1, hf4.2]
    · rw [if_neg hbb] at hw2
      linarith [hf1.1, hf1.2, hf2.1, hf2.2, hf3.1, hf3.2, hf4.1, hf4.2]
  · intro me mr w st hok hyd
    rw [computeWeightAndStatistics_ok_iff] at hok
    obtain ⟨-, -, a, b, -, -, -, hw⟩ := hok
    rw [if_neg (show ¬ st.year_difference ≤ 0 by omega), if_pos hyd] at hw
    rw [hw]
    ring

/-- C5 (amended): the fractional-overlap denominators are not guarded:
a mentee with an empty `interested_fields` or `desired_topics` set makes
the scorer fail with the division-by-zero error instead of contributing
0. -/
theorem c5_unguarded_zero_denominator (me : Mentee2020) (mr : Mentor2020)
    (h : me.interested_fields = ∅ ∨ me.desired_topics = ∅) :
    computeWeightAndStatistics me mr = .error .zeroDivisionError := by
  unfold computeWeightAndStatistics
  by_cases hi : me.interested_fields.card = 0
  · rw [if_pos hi]
  · rw [if_neg hi]
    have ht : me.desired_topics.card = 0 := by
      rcases h with h | h
      · exact absurd (by rw [h]; rfl) hi
      · rw [h]; rfl
    rw [if_pos ht]

/-- C5 counterexample: a mentee with an empty interest set makes the
scorer fail with a division-by-zero error instead of a weight whose
overlap contribution is 0. -/
theorem c5_counterexample :
    computeWeightAndStatistics menteeNoInterests mentorSenior =
      .error .zeroDivisionError := rfl

/-- Witness for C5's amended claim at a concrete empty-topics mentee. -/
theorem c5_witness :
    computeWeightAndStatistics menteeNoTopics mentorSenior =
      .error .zeroDivisionError :=
  c5_unguarded_zero_denominator menteeNoTopics mentorSenior (Or.inr rfl)

/-- C6: the edge weight subtracts `perMenteePenalty × slot_index`: for a
fixed mentee and two slots of the same mentor with indices `i` and `j`,
the weights differ by exactly `100 * (j - i)` and the statistics
breakdowns agree on every other term. -/
theorem c6_slot_order_penalty (me : Mentee2020) (mr : Mentor2020)
    (i j : Nat) (wi wj : ℚ) (si sj : Stats2020)
    (hi : computeWeightAndStatistics me { mr with copy_number := i } =
      .ok (wi, si))
    (hj : computeWeightAndStatistics me { mr with copy_number := j } =
      .ok (wj, sj)) :
    wi - wj = MENTOR_TAKES_ON_ANOTHER_MENTEE_PENALTY * ((j : ℚ) - (i : ℚ)) ∧
    si = sj := by
  rw [computeWeightAndStatistics_ok_iff] at hi hj
  obtain ⟨-, -, a, b, ha, hb, hsti, hwi⟩ := hi
  obtain ⟨-, -, a', b', ha', hb', hstj, hwj⟩ := hj
  have ha2 : yearValues mr.year = some a := ha
  have ha2' : yearValues mr.year = some a' := ha'
  have hb2 : yearValues me.year = some b := hb
  have hb2' : yearValues me.year = some b' := hb'
  rw [ha2] at ha2'
  rw [hb2] at hb2'
  have haa : a = a' := Option.some_inj.mp ha2'
  have hbb : b = b' := Option.some_inj.mp hb2'
  have hss : si = sj := by
    rw [hsti, hstj, haa, hbb]
  rw [show ({ mr with copy_number := i } : Mentor2020).copy_number = i
    from rfl] at hwi
  rw [show ({ mr with copy_number := j } : Mentor2020).copy_number = j
    from rfl] at hwj
  rw [← hss] at hwj
  refine ⟨?_, hss⟩
  rw [hwi, hwj]
  ring

/-- Witness for C3: a same-year pair scores -10000000 while a one-year-
older pair of slot index 0 scores 1; the theorem gives the strict
comparison and the bonus decomposition. -/
theorem c3_witness :
    computeWeightAndStatistics menteeJunior mentorJunior =
      .ok (-10000000, ⟨0, 0, 0⟩) ∧
    computeWeightAndStatistics menteeJunior mentorSenior =
      .ok (1, ⟨0, 0, 1⟩) ∧
    (-10000000 : ℚ) < 1 ∧
    (1 : ℚ) = CAREER_INTERESTS_MULTIPLIER * (0 : ℚ)
        + RECRUITMENT_TOPICS_MULTIPLIER * (0 : ℚ)
        + MENTOR_CLOSE_IN_YEAR_BONUS
        - MENTOR_TAKES_ON_ANOTHER_MENTEE_PENALTY * ((0 : Nat) : ℚ) := by
  have h1 : computeWeightAndStatistics menteeJunior mentorJunior =
      .ok (-10000000, ⟨0, 0, 0⟩) := by
    rw [computeWeightAndStatistics_ok_iff]
    refine ⟨by decide, by decide, 3, 3, by decide, by decide, ?_, ?_⟩
    · simp [menteeJunior, mentorJunior]
    · norm_num [CAREER_INTERESTS_MULTIPLIER, RECRUITMENT_TOPICS_MULTIPLIER,
        MENTOR_NOT_OLDER_PENALTY, MENTOR_CLOSE_IN_YEAR_BONUS,
        MENTOR_TAKES_ON_ANOTHER_MENTEE_PENALTY, mentorJunior]
  have h2 : computeWeightAndStatistics menteeJunior mentorSenior =
      .ok (1, ⟨0, 0, 1⟩) := by
    rw [computeWeightAndStatistics_ok_iff]
    refine ⟨by decide, by decide, 4, 3, by decide, by decide, ?_, ?_⟩
    · simp [menteeJunior, mentorSenior]
    · norm_num [CAREER_INTERESTS_MULTIPLIER, RECRUITMENT_TOPICS_MULTIPLIER,
        MENTOR_NOT_OLDER_PENALTY, MENTOR_CLOSE_IN_YEAR_BONUS,
        MENTOR_TAKES_ON_ANOTHER_MENTEE_PENALTY, mentorSenior]
  refine ⟨h1, h2, ?_, ?_⟩
  · exact c3_seniority_gate.1 menteeJunior mentorJunior menteeJunior
      mentorSenior mentorSenior (-10000000) 1 ⟨0, 0, 0⟩ ⟨0, 0, 1⟩ h1 h2 rfl
      (List.mem_cons_self _ _) (by decide) (by decide)
  · exact c3_seniority_gate.2 menteeJunior mentorSenior 1 ⟨0, 0, 1⟩ h2
      (Or.inl rfl)

/-- Witness for C6: the same mentee scored against slot 0 and slot 1 of
the same mentor; the weights are 1 and -99 and differ by the slot
penalty. -/
theorem c6_witness :
    computeWeightAndStatistics menteeJunior
      { mentorSenior with copy_number := 0 } = .ok (1, ⟨0, 0, 1⟩) ∧
    computeWeightAndStatistics menteeJunior
      { mentorSenior with copy_number := 1 } = .ok (-99, ⟨0, 0, 1⟩) ∧
    ((1 : ℚ) - (-99) =
        MENTOR_TAKES_ON_ANOTHER_MENTEE_PENALTY * ((1 : ℚ) - (0 : ℚ)) ∧
      (⟨0, 0, 1⟩ : Stats2020) = ⟨0, 0, 1⟩) := by
  have h0 : computeWeightAndStatistics menteeJunior
      { mentorSenior with copy_number := 0 } = .ok (1, ⟨0, 0, 1⟩) := by
    rw [computeWeightAndStatistics_ok_iff]
    refine ⟨by decide, by decide, 4, 3, by decide, by decide, ?_, ?_⟩
    · simp [menteeJunior, mentorSenior]
    · norm_num [CAREER_INTERESTS_MULTIPLIER, RECRUITMENT_TOPICS_MULTIPLIER,
        MENTOR_NOT_OLDER_PENALTY, MENTOR_CLOSE_IN_YEAR_BONUS,
        MENTOR_TAKES_ON_ANOTHER_MENTEE_PENALTY, mentorSenior]
  have h1 : computeWeightAndStatistics menteeJunior
      { mentorSenior with copy_number := 1 } = .ok (-99, ⟨0, 0, 1⟩) := by
    rw [computeWeightAndStatistics_ok_iff]
    refine ⟨by decide, by decide, 4, 3, by decide, by decide, ?_, ?_⟩
    · simp [menteeJunior, mentorSenior]
    · norm_num [CAREER_INTERESTS_MULTIPLIER, RECRUITMENT_TOPICS_MULTIPLIER,
        MENTOR_NOT_OLDER_PENALTY, MENTOR_CLOSE_IN_YEAR_BONUS,
        MENTOR_TAKES_ON_ANOTHER_MENTEE_PENALTY, mentorSenior]
  exact ⟨h0, h1, c6_slot_order_penalty menteeJunior mentorSenior 0 1 1 (-99)
    ⟨0, 0, 1⟩ ⟨0, 0, 1⟩ h0 h1⟩

/-- C7 (amended): parsing a multi-value field whose raw value is the
empty string yields the singleton set containing the empty string — no
error is raised, but the tag set is not empty. -/
theorem c7_empty_field_singleton : parseTagSet "" = {""} := by decide

/-- C7 counterexample: the tag set parsed from the empty string is not
the empty set. -/
theorem c7_counterexample : parseTagSet "" ≠ ∅ := by decide

/-- C8 (amended): the reporting step computes, per criterion, the mean
and the sample standard deviation (represented exactly by its square)
across all winning edges when there are at least two of them; with fewer
than two edges it fails — `statistics.stdev` raises `StatisticsError` on
one edge and `edges[0]` raises `IndexError` on zero — instead of
reporting the deviation as undefined. -/
theorem c8_reporting_mean_stdev :
    (∀ (e0 : Stats2020) (tl : List Stats2020), 2 ≤ (e0 :: tl).length →
      ∃ r, printOverallMatchingStatistics (e0 :: tl) = .ok r ∧
        r.interests_avg =
          ((e0 :: tl).map (fun e => e.interests_overlap_fraction)).sum /
            (((e0 :: tl).length : ℚ)) ∧
        r.year_avg =
          ((e0 :: tl).map (fun e => (e.year_difference : ℚ))).sum /
            (((e0 :: tl).length : ℚ))) ∧
    (∀ edges : List Stats2020, edges.length < 2 →
      ∃ err, printOverallMatchingStatistics edges = .error err) := by
  constructor
  · intro e0 tl h
    exact ⟨_, printOverall_ok e0 tl (by omega), rfl, rfl⟩
  · intro edges h
    rcases edges with _ | ⟨e0, tl⟩
    · exact ⟨.indexError, rfl⟩
    · refine ⟨.statisticsError, ?_⟩
      unfold printOverallMatchingStatistics
      rw [pyMean_ok _ (by simp), except_bind_ok,
        pySampleVariance_err _ (by simpa using h), except_bind_err]

/-- C8 counterexample: on a single winning edge the reporting step fails
with the `StatisticsError` raised by `statistics.stdev`, instead of
reporting the standard deviation as undefined. -/
theorem c8_counterexample :
    printOverallMatchingStatistics [stats0] = .error .statisticsError := by
  unfold printOverallMatchingStatistics
  rw [pyMean_ok _ (by simp), except_bind_ok,
    pySampleVariance_err _ (by simp), except_bind_err]

/-- Witness for C8 on a two-edge list and a one-edge list. -/
theorem c8_witness :
    (∃ r, printOverallMatchingStatistics [stats0, stats1] = .ok r ∧
      r.interests_avg =
        ([stats0, stats1].map (fun e => e.interests_overlap_fraction)).sum /
          ((([stats0, stats1] : List Stats2020).length : ℚ)) ∧
      r.year_avg =
        ([stats0, stats1].map (fun e => (e.year_difference : ℚ))).sum /
          ((([stats0, stats1] : List Stats2020).length : ℚ))) ∧
    (∃ err, printOverallMatchingStatistics [stats1] = .error err) :=
  ⟨c8_reporting_mean_stdev.1 stats0 [stats1] (by norm_num),
   c8_reporting_mean_stdev.2 [stats1] (by norm_num)⟩

/-- C9: the 2021 scorer never reaches the gender/race mutual-preference
criterion: on every pair — here a mentee and a mentor who both declared
a gender preference — the first criterion's `compute_with_overlap`
aborts with `RecursionError` (reading the getter-only `weight` property
re-enters `compute_weight_and_statistics`), so no bonus is awarded and
no breakdown booleans are recorded. -/
theorem c9_gender_bonus_unreachable :
    computeWeightAndStatistics2021 mentee2021GenderPref
      mentor2021GenderPref = .error .recursionError := rfl

/-- C10: every survey-parsed mentee and mentor has non-empty tag sets —
Python's `split` on any string, the empty string included, yields at
least one item — and consequently the 2020 scorer's overlap divisions
never raise the division-by-zero error on a survey-parsed mentee. -/
theorem c10_parsed_sets_nonempty (rowA rowB : List String)
    (me : Mentee2020) (mr : Mentor2020)
    (hme : Mentee2020.fromSurveyResponse rowA = some me)
    (hmr : Mentor2020.fromSurveyResponse rowB = some mr) :
    me.interested_fields.Nonempty ∧ me.desired_topics.Nonempty ∧
    mr.experienced_fields.Nonempty ∧ mr.knowledgeable_topics.Nonempty ∧
    ∀ mr2 : Mentor2020,
      computeWeightAndStatistics me mr2 ≠ .error .zeroDivisionError := by
  have hmee : me.interested_fields.Nonempty ∧ me.desired_topics.Nonempty := by
    unfold Mentee2020.fromSurveyResponse at hme
    split at hme
    · simp only [Option.some.injEq] at hme
      subst hme
      exact ⟨parseTagSet_nonempty _, parseTagSet_nonempty _⟩
    · simp at hme
  have hmre : mr.experienced_fields.Nonempty ∧
      mr.knowledgeable_topics.Nonempty := by
    unfold Mentor2020.fromSurveyResponse at hmr
    split at hmr
    · simp only [Option.some.injEq] at hmr
      subst hmr
      exact ⟨parseTagSet_nonempty _, parseTagSet_nonempty _⟩
    · simp at hmr
  refine ⟨hmee.1, hmee.2, hmre.1, hmre.2, ?_⟩
  intro mr2 hcontra
  unfold computeWeightAndStatistics at hcontra
  rw [if_neg (Finset.card_ne_zero.mpr hmee.1),
    if_neg (Finset.card_ne_zero.mpr hmee.2)] at hcontra
  split at hcontra <;> simp at hcontra

/-- Witness for C10 on concrete well-formed survey rows. -/
theorem c10_witness :
    menteeParsed.interested_fields.Nonempty ∧
    menteeParsed.desired_topics.Nonempty ∧
    mentorParsed.experienced_fields.Nonempty ∧
    mentorParsed.knowledgeable_topics.Nonempty ∧
    computeWeightAndStatistics menteeParsed mentorParsed ≠
      .error .zeroDivisionError := by
  obtain ⟨h1, h2, h3, h4, h5⟩ := c10_parsed_sets_nonempty rowMentee rowMentor
    menteeParsed mentorParsed rfl rfl
  exact ⟨h1, h2, h3, h4, h5 mentorParsed⟩
